import Mathlib

/-!
Verification of the WhatsApp-powered task-assigner reminder core (`src/app.py`)
against its natural-language specification.

Shallow embedding conventions:
* instants are integers counting minutes; `timedelta(days = d)` is `d * minutesPerDay`;
* the APScheduler job store is a `List IntervalJob`; `scheduler.remove_job` is a
  filter on the job id (idempotent, absence swallowed as in the source's
  `try/except pass`); `scheduler.add_job (replace_existing := True)` is
  remove-then-append;
* the valid fire instants of an interval job follow APScheduler's
  `IntervalTrigger`: `start_date + k * interval` for integer `k >= 0`, restricted
  to instants `<= end_date` (APScheduler documents `end_date` as the latest
  possible date/time to trigger on, i.e. the bound is inclusive);
* the outbound transport (`api_send_text`, a `requests.post` plus
  `raise_for_status`) is an oracle `String -> String -> SendResult`; every failure
  mode (timeout, non-2xx, connection error) surfaces in the source as a Python
  exception from `api_send_text`, modelled by `SendResult.err detail`;
* fallible Python code that can raise out of a function is `Except String`;
* database rows are list entries; primary-key / unique-constraint lookups are
  `List.find?`;
* Python string truthiness (`a or b` on strings) is `pyOr`.
-/

namespace WA

/-- One day, in minutes (`timedelta(days=1)`). -/
def minutesPerDay : Int := 1440

/-- A row of the `contacts` table (`class Contact` in `src/app.py`). -/
structure Contact where
  name : String
  phone_raw : String
  phone_e164 : String
  chat_id : String
  tags : String
  note : String
  deriving DecidableEq

/-- A row of the `tasks` table (`class Task`), with the `assignee`
relationship eager-loaded as in the source (`lazy="joined"`). -/
structure Task where
  id : Nat
  title : String
  description : String
  status : String
  priority : String
  due_at : Option Int
  assignee : Contact
  start_at : Int
  freq_days : Int
  remind_for_days : Int
  deriving DecidableEq

/-- A row of the `task_comments` table (`class TaskComment`). -/
structure TaskComment where
  task_id : Nat
  author : String
  body : String
  deriving DecidableEq

/-- Source `job_id_for_task` from `src/app.py`: the job-store key for a task. -/
def job_id_for_task (task_id : Nat) : String :=
  "task-" ++ toString task_id

/-- A persisted APScheduler interval job, carrying exactly the parameters
`schedule_task` passes to `scheduler.add_job`. -/
structure IntervalJob where
  jobId : String
  taskId : Nat
  startDate : Int
  endDate : Int
  intervalDays : Int
  coalesce : Bool
  misfireGraceTime : Int
  maxInstances : Nat
  deriving DecidableEq

/-- Models `scheduler.remove_job jid` on the job store: drops the job keyed `jid`;
absence is not an error (the source swallows the exception). -/
def removeJob (jobs : List IntervalJob) (jid : String) : List IntervalJob :=
  jobs.filter (fun j => j.jobId != jid)

/-- The job definition `schedule_task t` inserts: interval trigger with
`days = max 1 t.freq_days`, `start_date = t.start_at`,
`end_date = t.start_at + max 0 t.remind_for_days` days, plus the fixed
`coalesce`, `misfire_grace_time` and `max_instances` arguments of the source. -/
def mkJob (t : Task) : IntervalJob where
  jobId := job_id_for_task t.id
  taskId := t.id
  startDate := t.start_at
  endDate := t.start_at + max 0 t.remind_for_days * minutesPerDay
  intervalDays := max 1 t.freq_days
  coalesce := true
  misfireGraceTime := 900
  maxInstances := 1

/-- Source `schedule_task` from `src/app.py`: remove any job under the task's id,
then add the new definition under that id (`replace_existing=True`). -/
def schedule_task (jobs : List IntervalJob) (t : Task) : List IntervalJob :=
  removeJob jobs (job_id_for_task t.id) ++ [mkJob t]

/-- Source `cancel_task_schedule` from `src/app.py`: best-effort idempotent removal. -/
def cancel_task_schedule (jobs : List IntervalJob) (task_id : Nat) : List IntervalJob :=
  removeJob jobs (job_id_for_task task_id)

/-- The valid fire instants of an interval job, per APScheduler's
`IntervalTrigger`: `start_date + k * interval` for `k >= 0`, restricted to
instants `<= end_date` (the end bound is inclusive). -/
def isFireInstant (j : IntervalJob) (x : Int) : Prop :=
  ∃ k : Nat, x = j.startDate + (k : Int) * (j.intervalDays * minutesPerDay) ∧ x ≤ j.endDate

/-- The fire-instant set as the SPEC words it (for comparison with the code):
`start_at + k*freq_days days` for `k >= 0`, truncated to instants strictly
before `start_at + remind_for_days days` (exclusive end). -/
def specFireInstant (t : Task) (x : Int) : Prop :=
  (∃ k : Nat, x = t.start_at + (k : Int) * (t.freq_days * minutesPerDay)) ∧
    x < t.start_at + t.remind_for_days * minutesPerDay

/-- One piece of a message template: literal text, or a `\x7bname\x7d`
placeholder as consumed by Python's `str.format`. -/
inductive TItem
  | lit (s : String)
  | ph (field : String)
  deriving DecidableEq

/-- Stand-in for `strftime` on an instant (opaque rendering; no claim depends
on the formatted text). -/
def formatInstant (x : Int) : String :=
  toString x

/-- The `due_str` computed inside `render_message`: the formatted `due_at`
or `"N/A"` when the task has no due date. -/
def dueStr (t : Task) : String :=
  match t.due_at with
  | some d => formatInstant d
  | none => "N/A"

/-- The keyword arguments `render_message` passes to `template.format`:
the six known placeholder names and their values; any other placeholder name
is unknown and makes `format` raise `KeyError`. -/
def placeholderValue (t : Task) (c : Contact) (f : String) : Option String :=
  if f = "assignee_name" then some c.name
  else if f = "title" then some t.title
  else if f = "description" then some (t.description.take 500)
  else if f = "due_date" then some (dueStr t)
  else if f = "priority" then some t.priority
  else if f = "status" then some t.status
  else none

/-- Python's `template.format(...)` on a parsed template: substitutes known
placeholders, raises (`Except.error`) on an unknown one. -/
def formatItems (t : Task) (c : Contact) : List TItem → Except String String
  | [] => Except.ok ""
  | TItem.lit s :: rest => (formatItems t c rest).map (fun r => s ++ r)
  | TItem.ph f :: rest =>
    match placeholderValue t c f with
    | none => Except.error ("KeyError: " ++ f)
    | some v => (formatItems t c rest).map (fun r => v ++ r)

/-- Source `render_message` from `src/app.py`, over the current template setting
`tpl`: can raise (propagated as `Except.error`), e.g. on an unknown
placeholder in the template. -/
def render_message (tpl : List TItem) (t : Task) (c : Contact) : Except String String :=
  formatItems t c tpl

/-- Outcome of one call of the outbound transport `api_send_text`:
`ok resp` is a successful send returning the parsed response, `err detail`
is any raised failure (timeout, non-2xx via `raise_for_status`, connection
error), with `detail` the Python-side exception description. -/
inductive SendResult
  | ok (resp : String)
  | err (detail : String)
  deriving DecidableEq

/-- Observable outcome of one `_send_task_ping` call that returns normally:
the returned `(ok, info)` pair, the job store afterwards, and the trace of
transport invocations (`sends` lists each `api_send_text (chat_id, text)`
call made, in order). -/
structure PingOutcome where
  delivered : Bool
  detail : String
  jobs : List IntervalJob
  sends : List (String × String)
  deriving DecidableEq

/-- Source `_send_task_ping` from `src/app.py`, over a transport oracle and the
current tables/job store. `Except.error` models an exception escaping the
function (the source has no handler around `render_message`); a normal
return carries the `(ok, info)` pair plus the job store and transport
trace. -/
def _send_task_ping (transport : String → String → SendResult)
    (tasks : List Task) (tpl : List TItem) (jobs : List IntervalJob)
    (task_id : Nat) : Except String PingOutcome :=
  match tasks.find? (fun t => t.id == task_id) with
  | none => Except.ok { delivered := false, detail := "Task not found", jobs := jobs, sends := [] }
  | some t =>
    if t.status = "completed" ∨ t.status = "cancelled" then
      Except.ok { delivered := false
                  detail := "Task is " ++ t.status ++ "; not sending"
                  jobs := removeJob jobs (job_id_for_task task_id)
                  sends := [] }
    else
      match render_message tpl t t.assignee with
      | Except.error e => Except.error e
      | Except.ok msg =>
        match transport t.assignee.chat_id msg with
        | SendResult.ok resp =>
          Except.ok { delivered := true, detail := resp, jobs := jobs
                      sends := [(t.assignee.chat_id, msg)] }
        | SendResult.err d =>
          Except.ok { delivered := false, detail := d, jobs := jobs
                      sends := [(t.assignee.chat_id, msg)] }

/-- Observable steps of the CRUD operations, in execution order, used to
state ordering properties of `update_task_status` and `delete_task`. -/
inductive Event
  | statusSet (taskId : Nat) (status : String)
  | commentAdded (taskId : Nat) (author : String) (body : String)
  | jobCancelled (taskId : Nat)
  | jobScheduled (taskId : Nat)
  | commentsRemoved (taskId : Nat)
  | taskRemoved (taskId : Nat)
  deriving DecidableEq

/-- Source `update_task_status` from `src/app.py`: on a found task, set the status,
append the system audit comment, commit, then cancel the job (closing
status) or reschedule (otherwise). Returns the Python return value, the
tables and job store afterwards, and the ordered event trace. -/
def update_task_status (tasks : List Task) (comments : List TaskComment)
    (jobs : List IntervalJob) (task_id : Nat) (new_status : String) :
    Bool × List Task × List TaskComment × List IntervalJob × List Event :=
  match tasks.find? (fun t => t.id == task_id) with
  | none => (false, tasks, comments, jobs, [])
  | some t =>
    let tasks' := tasks.map (fun u => if u.id = task_id then { u with status := new_status } else u)
    let comments' := comments ++
      [{ task_id := task_id, author := "system", body := "Status changed to " ++ new_status }]
    let ev := [Event.statusSet task_id new_status,
               Event.commentAdded task_id "system" ("Status changed to " ++ new_status)]
    if new_status = "completed" ∨ new_status = "cancelled" then
      (true, tasks', comments', cancel_task_schedule jobs task_id,
       ev ++ [Event.jobCancelled task_id])
    else
      (true, tasks', comments', schedule_task jobs { t with status := new_status },
       ev ++ [Event.jobScheduled task_id])

/-- Source `delete_task` from `src/app.py`: cancel the scheduled job first
(unconditionally), then, if the task exists, delete its comments, then the
task row; returns the Python return value, the tables and job store
afterwards, and the ordered event trace. -/
def delete_task (tasks : List Task) (comments : List TaskComment)
    (jobs : List IntervalJob) (task_id : Nat) :
    Bool × List Task × List TaskComment × List IntervalJob × List Event :=
  let jobs' := cancel_task_schedule jobs task_id
  match tasks.find? (fun t => t.id == task_id) with
  | none => (false, tasks, comments, jobs', [Event.jobCancelled task_id])
  | some _ =>
    (true, tasks.filter (fun t => t.id != task_id),
     comments.filter (fun c => c.task_id != task_id),
     jobs',
     [Event.jobCancelled task_id, Event.commentsRemoved task_id, Event.taskRemoved task_id])

/-- Python string truthiness of `a or b`: the empty string is falsy. -/
def pyOr (a b : String) : String :=
  if a = "" then b else a

/-- Source `chat_id_from_e164` from `src/app.py`: keep the digits, append the
chat-id suffix. -/
def chat_id_from_e164 (e164 : String) : String :=
  String.mk (e164.toList.filter Char.isDigit) ++ "@c.us"

/-- Source `upsert_contact` from `src/app.py`, over `norm`, the phone normalizer
(`to_e164`, the external `phonenumbers` library: `none` on an invalid
number). Raises `ValueError` on an invalid number; otherwise updates the
contact row with the normalized chat id in place with Python-`or` merge
semantics, or inserts a fresh row when none exists. -/
def upsert_contact (norm : String → Option String) (contacts : List Contact)
    (name phone tags note : String) : Except String (List Contact) :=
  match norm phone with
  | none => Except.error "Invalid phone number"
  | some e164 =>
    let cid := chat_id_from_e164 e164
    match contacts.find? (fun c => c.chat_id == cid) with
    | some _ =>
      Except.ok (contacts.map (fun c =>
        if c.chat_id = cid then
          { c with name := pyOr name c.name
                   phone_raw := phone
                   phone_e164 := e164
                   tags := pyOr tags c.tags
                   note := pyOr note c.note }
        else c))
    | none =>
      Except.ok (contacts ++
        [{ name := name, phone_raw := phone, phone_e164 := e164,
           chat_id := cid, tags := tags, note := note }])

/-! Helper lemmas about the job store. -/

theorem removeJob_not_mem (jobs : List IntervalJob) (jid : String) :
    ∀ j ∈ removeJob jobs jid, j.jobId ≠ jid := by
  intro j hj
  have := List.of_mem_filter hj
  simpa [bne_iff_ne] using this

theorem removeJob_filter_self (jobs : List IntervalJob) (jid : String) :
    (removeJob jobs jid).filter (fun j => j.jobId == jid) = [] := by
  rw [List.filter_eq_nil_iff]
  intro j hj
  simpa using removeJob_not_mem jobs jid j hj

theorem schedule_task_filter_self (jobs : List IntervalJob) (t : Task) :
    (schedule_task jobs t).filter (fun j => j.jobId == job_id_for_task t.id) = [mkJob t] := by
  rw [schedule_task, List.filter_append, removeJob_filter_self]
  simp [mkJob]

theorem mem_schedule_task_self (jobs : List IntervalJob) (t : Task) (j : IntervalJob)
    (hj : j ∈ schedule_task jobs t) (hid : j.jobId = job_id_for_task t.id) :
    j = mkJob t := by
  rcases List.mem_append.mp hj with h | h
  · exact absurd hid (removeJob_not_mem jobs (job_id_for_task t.id) j h)
  · simpa using h

/-! Concrete fixtures for counterexamples and witnesses. -/

/-- A valid contact row used by the concrete scenarios. -/
def demoContact : Contact :=
  { name := "Asha"
    phone_raw := "9876500000"
    phone_e164 := "+919876500000"
    chat_id := "919876500000@c.us"
    tags := ""
    note := "" }

/-- The spec's scenario task: created at `2024-01-01T09:00 IST` (encoded as
instant 0), `freq_days = 1`, `remind_for_days = 3`. -/
def demoTask : Task :=
  { id := 1
    title := "Report"
    description := ""
    status := "open"
    priority := "medium"
    due_at := none
    assignee := demoContact
    start_at := 0
    freq_days := 1
    remind_for_days := 3 }

/-- A task with `remind_for_days = 0` (reachable through direct
`schedule_task` calls; the UI form bounds the field at 1). -/
def zeroWindowTask : Task :=
  { demoTask with id := 2, start_at := 540, remind_for_days := 0 }

/-- A task with `freq_days = 0 < 1`, exercising the cadence clamp. -/
def zeroFreqTask : Task :=
  { demoTask with id := 3, freq_days := 0 }

/-- C1: the claim says the fire instants are `start_at + k*freq_days days`
strictly before `start_at + remind_for_days days`, with no fire at or after
that end instant. The code passes `end_date = start_at + remind_for_days
days` to an interval trigger whose end bound is inclusive, so on the spec's
own scenario (freq 1, window 3 days) the end instant itself is a valid fire
instant: a fourth fire occurs at 01-04 09:00. -/
theorem c1_counterexample :
    mkJob demoTask ∈ schedule_task [] demoTask ∧
    isFireInstant (mkJob demoTask)
      (demoTask.start_at + demoTask.remind_for_days * minutesPerDay) ∧
    ¬ specFireInstant demoTask
      (demoTask.start_at + demoTask.remind_for_days * minutesPerDay) := by
  refine ⟨by decide, ⟨3, ?_, ?_⟩, fun h => ?_⟩
  · norm_num [mkJob, demoTask, minutesPerDay]
  · norm_num [mkJob, demoTask, minutesPerDay]
  · exact absurd h.2 (by norm_num [demoTask, minutesPerDay])

/-- C1 (amended): for `freq_days >= 1` and `remind_for_days >= 1`, the job
`schedule_task` installs under the task's id has fire-instant set exactly
`\x7bstart_at + k*freq_days days : k >= 0\x7d` restricted to instants less
than OR EQUAL TO `start_at + remind_for_days days` — the end instant is
inclusive, so a fire occurs at the end instant whenever it lies on the
cadence. -/
theorem c1_fires_iff (jobs : List IntervalJob) (t : Task)
    (hf : 1 ≤ t.freq_days) (hr : 1 ≤ t.remind_for_days)
    (j : IntervalJob) (hj : j ∈ schedule_task jobs t)
    (hid : j.jobId = job_id_for_task t.id) (x : Int) :
    isFireInstant j x ↔
      ((∃ k : Nat, x = t.start_at + (k : Int) * (t.freq_days * minutesPerDay)) ∧
        x ≤ t.start_at + t.remind_for_days * minutesPerDay) := by
  have hje := mem_schedule_task_self jobs t j hj hid
  subst hje
  have h1 : (mkJob t).intervalDays = t.freq_days := max_eq_right hf
  have h2 : (mkJob t).endDate = t.start_at + t.remind_for_days * minutesPerDay := by
    have h0 : max 0 t.remind_for_days = t.remind_for_days :=
      max_eq_right (le_trans zero_le_one hr)
    simp only [mkJob, h0]
  have h3 : (mkJob t).startDate = t.start_at := rfl
  simp only [isFireInstant, h1, h2, h3]
  exact exists_and_right

/-- C1 witness: the amended characterization applied to the scenario task,
at the end instant `start_at + 3 days = 4320` (which does fire). -/
theorem c1_fires_iff_witness :
    (1 ≤ demoTask.freq_days) ∧ (1 ≤ demoTask.remind_for_days) ∧
    (isFireInstant (mkJob demoTask) 4320 ↔
      ((∃ k : Nat, (4320 : Int) = demoTask.start_at +
          (k : Int) * (demoTask.freq_days * minutesPerDay)) ∧
        (4320 : Int) ≤ demoTask.start_at + demoTask.remind_for_days * minutesPerDay)) :=
  ⟨by decide, by decide,
    c1_fires_iff [] demoTask (by decide) (by decide) (mkJob demoTask)
      (by decide) rfl 4320⟩

/-- C2: the claim says `remind_for_days <= 0` yields a job that never fires.
The code indeed accepts the input and creates a job, but that job's end
instant equals its start instant and the end bound is inclusive, so one
fire instant exists: `start_at` itself. -/
theorem c2_counterexample :
    mkJob zeroWindowTask ∈ schedule_task [] zeroWindowTask ∧
    isFireInstant (mkJob zeroWindowTask) zeroWindowTask.start_at := by
  refine ⟨by decide, ⟨0, ?_, ?_⟩⟩
  · norm_num [mkJob]
  · norm_num [mkJob, zeroWindowTask, demoTask, minutesPerDay]

/-- C2 (amended): for `remind_for_days <= 0`, `schedule_task` accepts the
task (it is total — no rejection path) and installs exactly one job under
the task's id, whose only fire instant is `start_at` itself (end instant =
start instant, bound inclusive): exactly one fire instant, not zero. -/
theorem c2_job_single_fire (jobs : List IntervalJob) (t : Task)
    (hr : t.remind_for_days ≤ 0) (x : Int) :
    (schedule_task jobs t).filter (fun j => j.jobId == job_id_for_task t.id) = [mkJob t] ∧
    (isFireInstant (mkJob t) x ↔ x = t.start_at) := by
  refine ⟨schedule_task_filter_self jobs t, ?_⟩
  have hend : (mkJob t).endDate = t.start_at := by
    have h0 : max 0 t.remind_for_days = 0 := max_eq_left hr
    simp only [mkJob, h0]
    ring
  constructor
  · rintro ⟨k, hk, hle⟩
    rw [hend] at hle
    rcases Nat.eq_zero_or_pos k with h0 | hpos
    · subst h0; simpa using hk
    · exfalso
      have hd : (1 : Int) ≤ (mkJob t).intervalDays := le_max_left _ _
      have hk1 : (1 : Int) ≤ (k : Int) := by exact_mod_cast hpos
      have hM : minutesPerDay = 1440 := rfl
      rw [hM] at hk
      have hs3 : (mkJob t).startDate = t.start_at := rfl
      rw [hs3] at hk
      nlinarith [hk, hle, hd, hk1]
  · rintro rfl
    exact ⟨0, by simp [mkJob], by rw [hend]⟩

/-- C2 witness: the amended statement at the concrete zero-window task and
its start instant. -/
theorem c2_job_single_fire_witness :
    zeroWindowTask.remind_for_days ≤ 0 ∧
    ((schedule_task [] zeroWindowTask).filter
        (fun j => j.jobId == job_id_for_task zeroWindowTask.id) = [mkJob zeroWindowTask] ∧
      (isFireInstant (mkJob zeroWindowTask) 540 ↔ (540 : Int) = zeroWindowTask.start_at)) :=
  ⟨by decide, c2_job_single_fire [] zeroWindowTask (by decide) 540⟩

/-- C3: scheduling a task always leaves exactly one live job keyed by its
id, replacing any previous definition: the jobs filtered to the task's key
are exactly the fresh definition, whatever the prior store contained — in
particular after repeated invocations for the same task. -/
theorem c3_one_live_job (jobs : List IntervalJob) (t : Task) :
    (schedule_task jobs t).filter (fun j => j.jobId == job_id_for_task t.id) = [mkJob t] ∧
    (schedule_task (schedule_task jobs t) t).filter
      (fun j => j.jobId == job_id_for_task t.id) = [mkJob t] :=
  ⟨schedule_task_filter_self jobs t, schedule_task_filter_self _ t⟩

/-- C8: a task with `freq_days < 1` is not rejected — `schedule_task`
installs its job as usual — and the installed cadence is clamped to
`max 1 freq_days = 1` day. -/
theorem c8_clamped_cadence (jobs : List IntervalJob) (t : Task) (h : t.freq_days < 1) :
    (schedule_task jobs t).filter (fun j => j.jobId == job_id_for_task t.id) = [mkJob t] ∧
    (mkJob t).intervalDays = 1 ∧ (mkJob t).intervalDays = max 1 t.freq_days :=
  ⟨schedule_task_filter_self jobs t, max_eq_left (le_of_lt h), rfl⟩

/-- A task in closing state `completed`, used to exercise the dispatch gate. -/
def completedTask : Task :=
  { demoTask with id := 4, status := "completed" }

/-- C4: dispatching a task whose status is `completed` or `cancelled`
returns not-delivered with an explanatory detail naming the status, removes
the task's job from the store, and never invokes the transport (empty send
trace) — and the call returns normally rather than raising. -/
theorem c4_closed_task_dispatch (transport : String → String → SendResult)
    (tasks : List Task) (tpl : List TItem) (jobs : List IntervalJob)
    (task_id : Nat) (t : Task)
    (hfind : tasks.find? (fun u => u.id == task_id) = some t)
    (hst : t.status = "completed" ∨ t.status = "cancelled") :
    _send_task_ping transport tasks tpl jobs task_id =
      Except.ok { delivered := false
                  detail := "Task is " ++ t.status ++ "; not sending"
                  jobs := removeJob jobs (job_id_for_task task_id)
                  sends := [] } := by
  simp only [_send_task_ping, hfind]
  rw [if_pos hst]

/-- C4 witness: dispatching a concrete completed task with a transport that
would succeed if it were ever called. -/
theorem c4_closed_task_dispatch_witness :
    ([completedTask].find? (fun u => u.id == (4 : Nat)) = some completedTask) ∧
    (completedTask.status = "completed" ∨ completedTask.status = "cancelled") ∧
    _send_task_ping (fun _ _ => SendResult.ok "sent") [completedTask] []
        [mkJob completedTask] 4 =
      Except.ok { delivered := false
                  detail := "Task is " ++ completedTask.status ++ "; not sending"
                  jobs := removeJob [mkJob completedTask] (job_id_for_task 4)
                  sends := [] } :=
  ⟨rfl, Or.inl rfl,
    c4_closed_task_dispatch (fun _ _ => SendResult.ok "sent") [completedTask] []
      [mkJob completedTask] 4 completedTask rfl (Or.inl rfl)⟩

/-- C6: when the transport call fails (any exception: timeout, non-2xx,
connection error — all modelled as `SendResult.err`), `_send_task_ping`
returns normally (no crash) with not-delivered and the failure detail, the
job store is untouched (job not cancelled), and the send trace has exactly
one entry (no early retry). -/
theorem c6_transport_failure (transport : String → String → SendResult)
    (tasks : List Task) (tpl : List TItem) (jobs : List IntervalJob)
    (task_id : Nat) (t : Task) (msg d : String)
    (hfind : tasks.find? (fun u => u.id == task_id) = some t)
    (hopen : ¬(t.status = "completed" ∨ t.status = "cancelled"))
    (hrender : render_message tpl t t.assignee = Except.ok msg)
    (htrans : transport t.assignee.chat_id msg = SendResult.err d) :
    _send_task_ping transport tasks tpl jobs task_id =
      Except.ok { delivered := false
                  detail := d
                  jobs := jobs
                  sends := [(t.assignee.chat_id, msg)] } := by
  simp only [_send_task_ping, hfind, hrender, htrans]
  rw [if_neg hopen]

/-- C6 witness: a concrete open task whose transport call times out. -/
theorem c6_transport_failure_witness :
    ([demoTask].find? (fun u => u.id == (1 : Nat)) = some demoTask) ∧
    ¬(demoTask.status = "completed" ∨ demoTask.status = "cancelled") ∧
    (render_message [TItem.lit "Hello"] demoTask demoTask.assignee = Except.ok "Hello") ∧
    _send_task_ping (fun _ _ => SendResult.err "ReadTimeout: request timed out")
        [demoTask] [TItem.lit "Hello"] [mkJob demoTask] 1 =
      Except.ok { delivered := false
                  detail := "ReadTimeout: request timed out"
                  jobs := [mkJob demoTask]
                  sends := [(demoTask.assignee.chat_id, "Hello")] } :=
  ⟨rfl, by decide, rfl,
    c6_transport_failure (fun _ _ => SendResult.err "ReadTimeout: request timed out")
      [demoTask] [TItem.lit "Hello"] [mkJob demoTask] 1 demoTask "Hello"
      "ReadTimeout: request timed out" rfl (by decide) rfl rfl⟩

/-- C7: the claim requires the dispatch call to handle a rendering failure
locally and fall back to a raw-field message. The source has no handler
around `render_message` (`_send_task_ping`'s only try/except guards the
transport call), so with a template containing an unknown placeholder the
`KeyError` raised by `template.format` propagates out of the dispatch call
instead of being turned into a fallback message. -/
theorem c7_render_error_propagates :
    _send_task_ping (fun _ _ => SendResult.ok "sent") [demoTask]
        [TItem.ph "unknown"] [mkJob demoTask] 1 =
      Except.error "KeyError: unknown" :=
  rfl

/-- C8 witness: the clamp at a concrete task with `freq_days = 0`. -/
theorem c8_clamped_cadence_witness :
    zeroFreqTask.freq_days < 1 ∧
    ((schedule_task [] zeroFreqTask).filter
        (fun j => j.jobId == job_id_for_task zeroFreqTask.id) = [mkJob zeroFreqTask] ∧
      (mkJob zeroFreqTask).intervalDays = 1 ∧
      (mkJob zeroFreqTask).intervalDays = max 1 zeroFreqTask.freq_days) :=
  ⟨by decide, c8_clamped_cadence [] zeroFreqTask (by decide)⟩

/-- C5: on an existing task, `update_task_status` performs exactly the
three steps in order — status update, then the system audit comment, then
the schedule decision (cancel on `completed`/`cancelled`, reschedule
otherwise) — as witnessed by the returned tables and the ordered event
trace, whose last event is the schedule decision; and after a closing
status no job keyed by the task's id remains. -/
theorem c5_status_update_order (tasks : List Task) (comments : List TaskComment)
    (jobs : List IntervalJob) (task_id : Nat) (new_status : String) (t : Task)
    (hfind : tasks.find? (fun u => u.id == task_id) = some t) :
    (update_task_status tasks comments jobs task_id new_status =
      (true,
       tasks.map (fun u => if u.id = task_id then { u with status := new_status } else u),
       comments ++ [{ task_id := task_id, author := "system",
                      body := "Status changed to " ++ new_status }],
       (if new_status = "completed" ∨ new_status = "cancelled"
        then cancel_task_schedule jobs task_id
        else schedule_task jobs { t with status := new_status }),
       [Event.statusSet task_id new_status,
        Event.commentAdded task_id "system" ("Status changed to " ++ new_status),
        (if new_status = "completed" ∨ new_status = "cancelled"
         then Event.jobCancelled task_id
         else Event.jobScheduled task_id)])) ∧
    ((new_status = "completed" ∨ new_status = "cancelled") →
      ∀ j ∈ cancel_task_schedule jobs task_id, j.jobId ≠ job_id_for_task task_id) := by
  constructor
  · simp only [update_task_status, hfind]
    by_cases h : new_status = "completed" ∨ new_status = "cancelled"
    · simp only [if_pos h]
      rfl
    · simp only [if_neg h]
      rfl
  · intro _ j hj
    exact removeJob_not_mem jobs _ j hj

/-- C5 witness: closing the scenario task with status `completed`. -/
theorem c5_status_update_order_witness :
    ([demoTask].find? (fun u => u.id == (1 : Nat)) = some demoTask) ∧
    ((update_task_status [demoTask] [] [mkJob demoTask] 1 "completed" =
      (true,
       [demoTask].map (fun u => if u.id = 1 then { u with status := "completed" } else u),
       [] ++ [{ task_id := 1, author := "system",
                body := "Status changed to " ++ "completed" }],
       (if "completed" = "completed" ∨ "completed" = "cancelled"
        then cancel_task_schedule [mkJob demoTask] 1
        else schedule_task [mkJob demoTask] { demoTask with status := "completed" }),
       [Event.statusSet 1 "completed",
        Event.commentAdded 1 "system" ("Status changed to " ++ "completed"),
        (if "completed" = "completed" ∨ "completed" = "cancelled"
         then Event.jobCancelled 1
         else Event.jobScheduled 1)])) ∧
     (("completed" = "completed" ∨ "completed" = "cancelled") →
       ∀ j ∈ cancel_task_schedule [mkJob demoTask] 1, j.jobId ≠ job_id_for_task 1)) :=
  ⟨rfl, c5_status_update_order [demoTask] [] [mkJob demoTask] 1 "completed" demoTask rfl⟩

/-- C9: on an existing task, `delete_task` returns `true` and performs the
three removal steps in order — job cancellation first, then the task's
comments, then the task row (event trace) — leaving no job keyed by the
task's id, no comment of the task, and no task row with its id; on a
missing task it returns `false`. -/
theorem c9_delete_order (tasks : List Task) (comments : List TaskComment)
    (jobs : List IntervalJob) (task_id : Nat) (t : Task)
    (hfind : tasks.find? (fun u => u.id == task_id) = some t)
    (tasks2 : List Task)
    (hnone : tasks2.find? (fun u => u.id == task_id) = none) :
    (delete_task tasks comments jobs task_id).1 = true ∧
    (delete_task tasks comments jobs task_id).2.2.2.2 =
      [Event.jobCancelled task_id, Event.commentsRemoved task_id,
       Event.taskRemoved task_id] ∧
    (∀ j ∈ (delete_task tasks comments jobs task_id).2.2.2.1,
      j.jobId ≠ job_id_for_task task_id) ∧
    (∀ c ∈ (delete_task tasks comments jobs task_id).2.2.1, c.task_id ≠ task_id) ∧
    (∀ u ∈ (delete_task tasks comments jobs task_id).2.1, u.id ≠ task_id) ∧
    (delete_task tasks2 comments jobs task_id).1 = false := by
  have hD : delete_task tasks comments jobs task_id =
      (true, tasks.filter (fun u => u.id != task_id),
       comments.filter (fun c => c.task_id != task_id),
       cancel_task_schedule jobs task_id,
       [Event.jobCancelled task_id, Event.commentsRemoved task_id,
        Event.taskRemoved task_id]) := by
    simp only [delete_task, hfind]
  refine ⟨by rw [hD], by rw [hD], ?_, ?_, ?_, by simp [delete_task, hnone]⟩
  · rw [hD]
    exact removeJob_not_mem jobs (job_id_for_task task_id)
  · rw [hD]
    intro c hc
    simpa [bne_iff_ne] using List.of_mem_filter hc
  · rw [hD]
    intro u hu
    simpa [bne_iff_ne] using List.of_mem_filter hu

/-- C9 witness: deleting the scenario task from a one-task table, and
deleting from an empty table. -/
theorem c9_delete_order_witness :
    ([demoTask].find? (fun u => u.id == (1 : Nat)) = some demoTask) ∧
    (([] : List Task).find? (fun u => u.id == (1 : Nat)) = none) ∧
    ((delete_task [demoTask] [⟨1, "admin", "note"⟩] [mkJob demoTask] 1).1 = true ∧
     (delete_task [demoTask] [⟨1, "admin", "note"⟩] [mkJob demoTask] 1).2.2.2.2 =
       [Event.jobCancelled 1, Event.commentsRemoved 1, Event.taskRemoved 1] ∧
     (∀ j ∈ (delete_task [demoTask] [⟨1, "admin", "note"⟩] [mkJob demoTask] 1).2.2.2.1,
       j.jobId ≠ job_id_for_task 1) ∧
     (∀ c ∈ (delete_task [demoTask] [⟨1, "admin", "note"⟩] [mkJob demoTask] 1).2.2.1,
       c.task_id ≠ 1) ∧
     (∀ u ∈ (delete_task [demoTask] [⟨1, "admin", "note"⟩] [mkJob demoTask] 1).2.1,
       u.id ≠ 1) ∧
     (delete_task [] [⟨1, "admin", "note"⟩] [mkJob demoTask] 1).1 = false) :=
  ⟨rfl, rfl,
    c9_delete_order [demoTask] [⟨1, "admin", "note"⟩] [mkJob demoTask] 1 demoTask rfl [] rfl⟩

/-- A stored contact row whose chat id the witness phone number normalizes
to. -/
def storedContact : Contact :=
  { name := "Ravi"
    phone_raw := "12345"
    phone_e164 := "+911234567890"
    chat_id := "911234567890@c.us"
    tags := ""
    note := "old note" }

/-- C10: when the phone number normalizes (via the external `to_e164`,
abstracted as `norm`) to the chat id of an existing contact, the row is
updated in place: `phone_raw` and `phone_e164` are always overwritten,
while empty `name`/`tags`/`note` arguments keep the stored values (Python
`or` on strings); the table keeps its length, so no second row with that
chat id is created. -/
theorem c10_upsert_merge (norm : String → Option String) (contacts : List Contact)
    (name phone tags note e164 : String) (c0 : Contact)
    (hn : norm phone = some e164)
    (hfind : contacts.find? (fun c => c.chat_id == chat_id_from_e164 e164) = some c0) :
    (upsert_contact norm contacts name phone tags note =
      Except.ok (contacts.map (fun c =>
        if c.chat_id = chat_id_from_e164 e164 then
          { c with name := if name = "" then c.name else name
                   phone_raw := phone
                   phone_e164 := e164
                   tags := if tags = "" then c.tags else tags
                   note := if note = "" then c.note else note }
        else c))) ∧
    (∀ cs', upsert_contact norm contacts name phone tags note = Except.ok cs' →
      cs'.length = contacts.length) := by
  have hmain : upsert_contact norm contacts name phone tags note =
      Except.ok (contacts.map (fun c =>
        if c.chat_id = chat_id_from_e164 e164 then
          { c with name := if name = "" then c.name else name
                   phone_raw := phone
                   phone_e164 := e164
                   tags := if tags = "" then c.tags else tags
                   note := if note = "" then c.note else note }
        else c)) := by
    simp only [upsert_contact, hn, hfind, pyOr]
  refine ⟨hmain, fun cs' h => ?_⟩
  rw [hmain] at h
  injection h with h2
  rw [← h2, List.length_map]

/-- C10 witness: updating the stored contact through a normalizer returning
its number, with empty `name` and `note` (kept) and non-empty `tags`
(replaced). -/
theorem c10_upsert_merge_witness :
    ((fun _ : String => some "+911234567890") "12345" = some "+911234567890") ∧
    ([storedContact].find? (fun c => c.chat_id == chat_id_from_e164 "+911234567890") =
      some storedContact) ∧
    ((upsert_contact (fun _ => some "+911234567890") [storedContact] "" "12345" "vip" "" =
      Except.ok ([storedContact].map (fun c =>
        if c.chat_id = chat_id_from_e164 "+911234567890" then
          { c with name := if "" = "" then c.name else ""
                   phone_raw := "12345"
                   phone_e164 := "+911234567890"
                   tags := if "vip" = "" then c.tags else "vip"
                   note := if "" = "" then c.note else "" }
        else c))) ∧
     (∀ cs', upsert_contact (fun _ => some "+911234567890") [storedContact] "" "12345" "vip" "" =
        Except.ok cs' → cs'.length = [storedContact].length)) :=
  ⟨rfl, rfl,
    c10_upsert_merge (fun _ => some "+911234567890") [storedContact]
      "" "12345" "vip" "" "+911234567890" storedContact rfl rfl⟩

end WA
